import Mathlib

/-!
# Verification of the micro-batcher engine

A shallow embedding of the micro-batching engine from `batch.go`
(package `microbatcher`): a guarded FIFO job queue, a dual-trigger
flush policy (size threshold and periodic timer), a shutdown drain,
and per-job single-assignment result futures backed by capacity-one
channels.

Channels are modelled by a store `List (Option B)`: each allocated
channel is a slot holding at most one buffered value; `AddJob`
allocates a fresh slot.  Concurrency is modelled by making each loop
iteration (one pass of the scheduler loop in `Start`, one firing of
the ticker listener in `startTicker`) an explicit step function on the
batcher state.  Go run-time panics (out-of-range slice bounds) and
blocking channel operations surface as `Option.none`.
-/

namespace Microbatcher

/-- `Job` from `batch.go`: a caller-assigned identifier (a Go `int`)
together with a payload.  Go `int` is modelled as `Int`; no arithmetic
is performed on it, so overflow cannot arise. -/
structure Job (A : Type) where
  Id : Int
  Data : A
  deriving Repr, DecidableEq

/-- `JobResult` from `batch.go`: the future handed back by `AddJob`.
`data` is the cache (`*B`, `nil` initially), `ch` identifies the
capacity-one delivery channel in the channel store. -/
structure JobResult (B : Type) where
  JobId : Int
  data : Option B
  ch : Nat
  deriving Repr, DecidableEq

/-- `batchJob` from `batch.go`: the queued pairing of a submitted job
with the channel its result must be written to. -/
structure BatchJob (A : Type) where
  job : Job A
  retCh : Nat
  deriving Repr, DecidableEq

/-- The `Batcher` state from `batch.go`.  The `time.Ticker` is
modelled by `tickerRemaining`, the time left until its next firing
(the ticker fires when it reaches zero and then re-arms itself to
`frequency`).  `chans` is the store of all channels allocated by
`AddJob` calls so far. -/
structure Batcher (A B : Type) where
  processor : A → B
  batchSize : Int
  frequency : Nat
  shuttingDown : Bool
  jobs : List (BatchJob A)
  tickerRemaining : Nat
  chans : List (Option B)

/-- Sending on a capacity-one buffered channel: succeeds exactly when
the slot exists and is empty; a send on a full slot blocks (`none`). -/
def chanSend {B : Type} (chans : List (Option B)) (i : Nat) (v : B) :
    Option (List (Option B)) :=
  match chans.get? i with
  | some none => some (chans.set i (some v))
  | _ => none

/-- Receiving from a capacity-one buffered channel: returns the
buffered value and drains the slot; blocks (`none`) when empty. -/
def chanRecv {B : Type} (chans : List (Option B)) (i : Nat) :
    Option (B × List (Option B)) :=
  match chans.get? i with
  | some (some v) => some (v, chans.set i none)
  | _ => none

/-- Go slice expression `xs[low:high]`: panics (`none`) unless
`0 ≤ low ≤ high ≤ len`.  (Go checks against the capacity; the only
slice sites in `batch.go` are guarded by `len ≥ batchSize`, under
which the length bound coincides with the capacity bound whenever the
bounds are non-negative.) -/
def goSlice {α : Type} (xs : List α) (low high : Int) : Option (List α) :=
  if 0 ≤ low ∧ low ≤ high ∧ high ≤ (xs.length : Int) then
    some ((xs.take high.toNat).drop low.toNat)
  else
    none

/-- `NewBatcher` from `batch.go`: stores the configuration as given,
starts not shutting down, with an empty queue, a freshly started
ticker and (in this model) an empty channel store. -/
def NewBatcher {A B : Type} (processor : A → B) (frequency : Nat)
    (batchSize : Int) : Batcher A B :=
  { processor := processor
    batchSize := batchSize
    frequency := frequency
    shuttingDown := false
    jobs := []
    tickerRemaining := frequency
    chans := [] }

/-- `AddJob` from `batch.go`.  When `shuttingDown` is set it returns
the error `"failed to add job; batcher is shutting down"` and leaves
the state unchanged; otherwise it allocates a fresh capacity-one
channel, appends the new `batchJob` to the tail of the queue, and
returns a future with `JobId = job.Id`, a `nil` cache and that fresh
channel. -/
def AddJob {A B : Type} (b : Batcher A B) (job : Job A) :
    Except String (JobResult B) × Batcher A B :=
  if b.shuttingDown then
    (Except.error "failed to add job; batcher is shutting down", b)
  else
    let ch := b.chans.length
    let newJob : BatchJob A := { job := job, retCh := ch }
    (Except.ok { JobId := job.Id, data := none, ch := ch },
     { b with jobs := b.jobs ++ [newJob], chans := b.chans ++ [none] })

/-- `Shutdown` from `batch.go`: sets the `shuttingDown` flag and
nothing else. -/
def Shutdown {A B : Type} (b : Batcher A B) : Batcher A B :=
  { b with shuttingDown := true }

/-- `JobResult.Get` from `batch.go`: return the cached value when one
exists (without touching the channel); otherwise receive from the
delivery channel, cache the value and return it.  `none` means the
call blocks (the channel is still empty). -/
def JobResult.Get {B : Type} (jr : JobResult B) (chans : List (Option B)) :
    Option (B × JobResult B × List (Option B)) :=
  match jr.data with
  | some v => some (v, jr, chans)
  | none =>
    match chanRecv chans jr.ch with
    | some (v, chans1) => some (v, { jr with data := some v }, chans1)
    | none => none

/-- `processJob` from `batch.go`: one dispatched invocation — apply
the processor to the job payload and send the result on that job's
return channel. -/
def processJob {A B : Type} (processor : A → B) (chans : List (Option B))
    (job : BatchJob A) : Option (List (Option B)) :=
  chanSend chans job.retCh (processor job.job.Data)

/-- `processBatch` from `batch.go` spawns `processJob` once per job of
the batch; the spawned invocations write to pairwise distinct
channels, so their effect on the channel store is their sequential
composition. -/
def processBatch {A B : Type} (processor : A → B) (chans : List (Option B))
    (batch : List (BatchJob A)) : Option (List (Option B)) :=
  batch.foldl
    (fun acc job => acc.bind (fun cs => processJob processor cs job))
    (some chans)

/-- The outcome of one loop iteration: the updated batcher, the batch
handed to `processBatch` (empty when no flush happened), and whether
the loop terminated at this iteration. -/
structure StepResult (A B : Type) where
  batcher : Batcher A B
  dispatched : List (BatchJob A)
  exited : Bool

/-- One iteration of the scheduler loop in `Batcher.Start`
(`batch.go`): in priority order, the shutdown drain (flush the whole
queue if non-empty, clear it, and return — the loop's only exit), then
the size trigger (when `len(jobs) ≥ batchSize`, slice off the first
`batchSize` jobs, dispatch them, keep the rest, and reset the ticker
to `frequency`), else do nothing.  `none` models a run-time panic of
the slice expressions. -/
def schedStep {A B : Type} (b : Batcher A B) : Option (StepResult A B) :=
  if b.shuttingDown then
    if b.jobs.length > 0 then
      some { batcher := { b with jobs := [] }, dispatched := b.jobs,
             exited := true }
    else
      some { batcher := b, dispatched := [], exited := true }
  else if (b.jobs.length : Int) ≥ b.batchSize then
    match goSlice b.jobs 0 b.batchSize,
          goSlice b.jobs b.batchSize b.jobs.length with
    | some batchJobs, some rest =>
      some { batcher := { b with jobs := rest, tickerRemaining := b.frequency },
             dispatched := batchJobs, exited := false }
    | _, _ => none
  else
    some { batcher := b, dispatched := [], exited := false }

/-- One iteration of the ticker listener loop `startTicker`
(`batch.go`): on each firing of the ticker, dispatch the entire
current queue and clear it; the ticker re-arms itself to `frequency`
(its normal periodic recurrence).  The loop body has no exit
condition, so `exited` is always `false`. -/
def tickStep {A B : Type} (b : Batcher A B) : StepResult A B :=
  { batcher := { b with jobs := [], tickerRemaining := b.frequency },
    dispatched := b.jobs, exited := false }

/-- Whether the ticker can fire right now (its countdown has run
out). -/
def canTickFire {A B : Type} (b : Batcher A B) : Bool :=
  b.tickerRemaining == 0

/-- Iterate the ticker listener `n` firings forward. -/
def tickIterN {A B : Type} : Nat → Batcher A B → Batcher A B
  | 0, b => b
  | n + 1, b => tickIterN n (tickStep b).batcher

/-! ## Helper lemmas on the channel store and on Go slices -/

lemma get_append_length {α : Type} (l : List α) (a : α) :
    (l ++ [a]).get? l.length = some a := by
  induction l with
  | nil => rfl
  | cons x xs ih => exact ih

lemma get_set_same {α : Type} (l : List α) (n : Nat) (a : α) (h : n < l.length) :
    (l.set n a).get? n = some a := by
  induction l generalizing n with
  | nil => simp at h
  | cons x xs ih =>
    cases n with
    | zero => rfl
    | succ m => simpa using ih m (by simpa using h)

lemma get_set_other {α : Type} (l : List α) (n i : Nat) (a : α) (h : i ≠ n) :
    (l.set n a).get? i = l.get? i := by
  induction l generalizing n i with
  | nil => rfl
  | cons x xs ih =>
    cases n with
    | zero =>
      cases i with
      | zero => exact absurd rfl h
      | succ j => rfl
    | succ m =>
      cases i with
      | zero => rfl
      | succ j => simpa using ih m j (fun hc => h (by simp [hc]))

lemma goSlice_zero {α : Type} (xs : List α) (k : Int) (h0 : 0 ≤ k)
    (hk : k ≤ (xs.length : Int)) :
    goSlice xs 0 k = some (xs.take k.toNat) := by
  simp [goSlice, h0, hk]

lemma goSlice_from {α : Type} (xs : List α) (k : Int) (h0 : 0 ≤ k)
    (hk : k ≤ (xs.length : Int)) :
    goSlice xs k (xs.length : Int) = some (xs.drop k.toNat) := by
  simp [goSlice, h0, hk]

/-- The equation for one size-triggered iteration of the scheduler
loop, shared by several theorems below. -/
lemma schedStep_size_eq {A B : Type} (b : Batcher A B)
    (hs : b.shuttingDown = false) (h0 : 0 ≤ b.batchSize)
    (hlen : b.batchSize ≤ (b.jobs.length : Int)) :
    schedStep b = some
      { batcher := { b with jobs := b.jobs.drop b.batchSize.toNat,
                            tickerRemaining := b.frequency },
        dispatched := b.jobs.take b.batchSize.toNat, exited := false } := by
  have h1 := goSlice_zero b.jobs b.batchSize h0 hlen
  have h2 := goSlice_from b.jobs b.batchSize h0 hlen
  simp [schedStep, hs, h1, h2, hlen]

/-- Whatever branch a scheduler iteration takes, it exits exactly when
the shutdown flag was set. -/
lemma schedStep_exited {A B : Type} (b : Batcher A B) (r : StepResult A B)
    (h : schedStep b = some r) : r.exited = b.shuttingDown := by
  unfold schedStep at h
  split at h
  · rename_i hsd
    split at h
    · cases h; simp [hsd]
    · cases h; simp [hsd]
  · rename_i hsd
    rw [Bool.not_eq_true] at hsd
    split at h
    · split at h
      · cases h; simp [hsd]
      · cases h
    · cases h; simp [hsd]

/-- The two slices taken by the size branch concatenate back to the
original queue. -/
lemma goSlice_append {α : Type} (xs : List α) (k : Int) (u w : List α)
    (hu : goSlice xs 0 k = some u)
    (hw : goSlice xs k (xs.length : Int) = some w) :
    u ++ w = xs := by
  unfold goSlice at hu hw
  split at hu
  · cases hu
    split at hw
    · cases hw
      have hlen : ((xs.length : Int)).toNat = xs.length := by omega
      rw [hlen, List.take_length]
      simp
    · cases hw
  · cases hu

/-- Whatever branch a scheduler iteration takes, the dispatched batch
followed by the remaining queue is the original queue. -/
lemma schedStep_dispatch_append {A B : Type} (b : Batcher A B)
    (r : StepResult A B) (h : schedStep b = some r) :
    r.dispatched ++ r.batcher.jobs = b.jobs := by
  unfold schedStep at h
  split at h
  · split at h
    · cases h; simp
    · rename_i hj
      cases h
      have : b.jobs = [] := List.length_eq_zero.mp (by omega)
      simp [this]
  · split at h
    · split at h
      · rename_i batchJobs rest h1 h2
        cases h
        exact goSlice_append b.jobs b.batchSize batchJobs rest h1 h2
      · cases h
    · cases h; simp

/-- The queue stays empty under any number of further ticker
firings. -/
lemma tickIterN_jobs_nil {A B : Type} (n : Nat) (b : Batcher A B)
    (h : b.jobs = []) : (tickIterN n b).jobs = [] := by
  induction n generalizing b with
  | zero => exact h
  | succ m ih => exact ih _ rfl

/-- Sending to the freshly appended (empty) channel slot succeeds. -/
lemma chanSend_append_fresh {B : Type} (chans : List (Option B)) (v : B) :
    chanSend (chans ++ [none]) chans.length v =
      some ((chans ++ [none]).set chans.length (some v)) := by
  unfold chanSend
  rw [get_append_length]

/-- Receiving from the slot just written yields the written value and
drains the slot. -/
lemma chanRecv_set_fresh {B : Type} (chans : List (Option B)) (v : B) :
    chanRecv ((chans ++ [none]).set chans.length (some v)) chans.length =
      some (v, ((chans ++ [none]).set chans.length (some v)).set
        chans.length none) := by
  have hlt : chans.length < (chans ++ [none]).length := by simp
  unfold chanRecv
  rw [get_set_same _ _ _ hlt]

/-! ## Claim theorems -/

/-- C2: `AddJob(job)` fails with the submission-rejected error exactly
when `shuttingDown` is true at the call, returning no usable future
and leaving the whole state (in particular the queue) unchanged;
otherwise it appends exactly one new queued job at the tail of the
queue and returns a freshly created, unresolved future (empty cache,
freshly allocated channel) whose `JobId` equals the submitted job's
`Id`. -/
theorem addJob_spec {A B : Type} (b : Batcher A B) (j : Job A) :
    (b.shuttingDown = true →
      AddJob b j =
        (Except.error "failed to add job; batcher is shutting down", b)) ∧
    (b.shuttingDown = false →
      AddJob b j =
        (Except.ok { JobId := j.Id, data := none, ch := b.chans.length },
         { b with jobs := b.jobs ++ [{ job := j, retCh := b.chans.length }],
                  chans := b.chans ++ [none] })) := by
  constructor <;> intro h <;> simp [AddJob, h]

/-- Witness for C2 at a concrete batcher, exercising both the
shutting-down and the accepting branch. -/
theorem addJob_spec_witness :
    ((Shutdown (NewBatcher (fun n : Nat => n + 1) 5 2)).shuttingDown = true ∧
      AddJob (Shutdown (NewBatcher (fun n : Nat => n + 1) 5 2)) ⟨1, 10⟩ =
        (Except.error "failed to add job; batcher is shutting down",
         Shutdown (NewBatcher (fun n : Nat => n + 1) 5 2))) ∧
    ((NewBatcher (fun n : Nat => n + 1) 5 2).shuttingDown = false ∧
      (AddJob (NewBatcher (fun n : Nat => n + 1) 5 2) ⟨1, 10⟩).1 =
        Except.ok { JobId := 1, data := none, ch := 0 }) :=
  ⟨⟨rfl, (addJob_spec (Shutdown (NewBatcher (fun n : Nat => n + 1) 5 2))
      ⟨1, 10⟩).1 rfl⟩,
   ⟨rfl, by rw [(addJob_spec (NewBatcher (fun n : Nat => n + 1) 5 2)
      ⟨1, 10⟩).2 rfl]; rfl⟩⟩

/-- C4: on every firing of the periodic timer the entire current queue
is dispatched — including a zero-job no-op flush — and the queue is
left empty; the flush does not consult `batchSize`. -/
theorem timerFlush_spec {A B : Type} (b : Batcher A B) :
    (tickStep b).dispatched = b.jobs ∧
    (tickStep b).batcher.jobs = [] ∧
    (b.jobs = [] → (tickStep b).dispatched = []) := by
  refine ⟨rfl, rfl, ?_⟩
  intro h
  simp [tickStep, h]

/-- Witness for C4 at a concrete batcher with an empty queue. -/
theorem timerFlush_spec_witness :
    (NewBatcher (fun n : Nat => n + 1) 5 2).jobs = [] ∧
    (tickStep (NewBatcher (fun n : Nat => n + 1) 5 2)).dispatched = [] :=
  ⟨rfl, (timerFlush_spec (NewBatcher (fun n : Nat => n + 1) 5 2)).2.2 rfl⟩

/-- C7: `Get()` is idempotent and caching.  With a cached value it
returns immediately without touching the delivery slot; with no cache
it blocks until the slot is written, then drains the slot, caches the
received value and returns it; any call after a successful call
returns the identical value. -/
theorem get_idempotent_spec {B : Type} (jr : JobResult B)
    (chans : List (Option B)) :
    (∀ v, jr.data = some v → jr.Get chans = some (v, jr, chans)) ∧
    (∀ v, jr.data = none → chans.get? jr.ch = some (some v) →
      jr.Get chans =
        some (v, { jr with data := some v }, chans.set jr.ch none)) ∧
    (jr.data = none → chans.get? jr.ch = some none → jr.Get chans = none) ∧
    (∀ v jr1 chans1, jr.Get chans = some (v, jr1, chans1) →
      jr1.data = some v ∧ jr1.Get chans1 = some (v, jr1, chans1)) := by
  refine ⟨?_, ?_, ?_, ?_⟩
  · intro v hv
    simp [JobResult.Get, hv]
  · intro v hd hc
    rw [List.get?_eq_getElem?] at hc
    simp [JobResult.Get, chanRecv, hd, hc]
  · intro hd hc
    rw [List.get?_eq_getElem?] at hc
    simp [JobResult.Get, chanRecv, hd, hc]
  · intro v jr1 chans1 hget
    cases hd : jr.data with
    | some w =>
      simp [JobResult.Get, hd] at hget
      obtain ⟨hv, hjr, hch⟩ := hget
      subst hv; subst hjr; subst hch
      exact ⟨hd, by simp [JobResult.Get, hd]⟩
    | none =>
      simp [JobResult.Get, hd] at hget
      rcases hrecv : chanRecv chans jr.ch with _ | ⟨w, chans2⟩
      · rw [hrecv] at hget
        simp at hget
      · rw [hrecv] at hget
        simp at hget
        obtain ⟨hv, hjr, hch⟩ := hget
        subst hv; subst hch
        refine ⟨by rw [← hjr], ?_⟩
        rw [← hjr]
        simp [JobResult.Get]

/-- Witness for C7 on a concrete future: an uncached first read drains
the slot, a second read returns the identical cached value. -/
theorem get_idempotent_spec_witness :
    (({ JobId := 1, data := none, ch := 0 } : JobResult Nat).data = none ∧
      ([some 7] : List (Option Nat)).get? 0 = some (some 7) ∧
      ({ JobId := 1, data := none, ch := 0 } : JobResult Nat).Get [some 7] =
        some (7, { JobId := 1, data := some 7, ch := 0 }, [none])) ∧
    (({ JobId := 1, data := some 7, ch := 0 } : JobResult Nat).data = some 7 ∧
      ({ JobId := 1, data := some 7, ch := 0 } : JobResult Nat).Get [none] =
        some (7, { JobId := 1, data := some 7, ch := 0 }, [none])) :=
  ⟨⟨rfl, rfl,
    (get_idempotent_spec { JobId := 1, data := none, ch := 0 }
        [some 7]).2.1 7 rfl rfl⟩,
   ⟨rfl,
    (get_idempotent_spec { JobId := 1, data := some 7, ch := 0 }
        [none]).1 7 rfl⟩⟩

/-- A concrete running batcher used by the witnesses: three queued
jobs, `batchSize = 2`, `frequency = 5`. -/
def exampleBatcher : Batcher Nat Nat :=
  { processor := fun n => n + 1
    batchSize := 2
    frequency := 5
    shuttingDown := false
    jobs := [{ job := ⟨1, 10⟩, retCh := 0 }, { job := ⟨2, 20⟩, retCh := 1 },
             { job := ⟨3, 30⟩, retCh := 2 }]
    tickerRemaining := 5
    chans := [none, none, none] }

/-- C3: when the queue holds at least `batchSize` jobs and the batcher
is not shutting down (with `batchSize` non-negative, as the spec fixes
it to a positive integer), one scheduler iteration dispatches exactly
the first `batchSize` queued jobs, keeps the remaining jobs queued in
their original order, does not exit, and the extracted batch has
exactly `batchSize` elements. -/
theorem sizeFlush_spec {A B : Type} (b : Batcher A B)
    (hs : b.shuttingDown = false) (h0 : 0 ≤ b.batchSize)
    (hlen : b.batchSize ≤ (b.jobs.length : Int)) :
    schedStep b = some
      { batcher := { b with jobs := b.jobs.drop b.batchSize.toNat,
                            tickerRemaining := b.frequency },
        dispatched := b.jobs.take b.batchSize.toNat, exited := false } ∧
    ((b.jobs.take b.batchSize.toNat).length : Int) = b.batchSize ∧
    b.jobs.take b.batchSize.toNat ++ b.jobs.drop b.batchSize.toNat =
      b.jobs := by
  refine ⟨schedStep_size_eq b hs h0 hlen, ?_, List.take_append_drop _ _⟩
  rw [List.length_take]
  omega

/-- Witness for C3 on the concrete batcher: two of the three queued
jobs form the extracted batch. -/
theorem sizeFlush_spec_witness :
    exampleBatcher.shuttingDown = false ∧
    (0 : Int) ≤ exampleBatcher.batchSize ∧
    exampleBatcher.batchSize ≤ (exampleBatcher.jobs.length : Int) ∧
    ((exampleBatcher.jobs.take exampleBatcher.batchSize.toNat).length : Int) =
      exampleBatcher.batchSize :=
  ⟨rfl, by decide, by decide,
   (sizeFlush_spec exampleBatcher rfl (by decide) (by decide)).2.1⟩

/-- C5: a size-triggered flush resets the ticker countdown to
`frequency`, so with a positive `frequency` the ticker cannot fire
immediately afterwards; a timer-triggered flush leaves the ticker at
its normal periodic recurrence (re-armed to `frequency`), performing
no reset beyond it. -/
theorem tickerReset_spec {A B : Type} (b : Batcher A B)
    (hs : b.shuttingDown = false) (h0 : 0 ≤ b.batchSize)
    (hlen : b.batchSize ≤ (b.jobs.length : Int)) :
    (∀ r : StepResult A B, schedStep b = some r →
      r.batcher.tickerRemaining = b.frequency ∧
      (0 < b.frequency → canTickFire r.batcher = false)) ∧
    (tickStep b).batcher.tickerRemaining = b.frequency := by
  refine ⟨?_, rfl⟩
  intro r hr
  rw [schedStep_size_eq b hs h0 hlen] at hr
  cases hr
  refine ⟨rfl, ?_⟩
  intro hf
  simp [canTickFire]
  omega

/-- Witness for C5 on the concrete batcher. -/
theorem tickerReset_spec_witness :
    exampleBatcher.shuttingDown = false ∧
    (0 : Int) ≤ exampleBatcher.batchSize ∧
    exampleBatcher.batchSize ≤ (exampleBatcher.jobs.length : Int) ∧
    (tickStep exampleBatcher).batcher.tickerRemaining =
      exampleBatcher.frequency :=
  ⟨rfl, by decide, by decide,
   (tickerReset_spec exampleBatcher rfl (by decide) (by decide)).2⟩

/-- C6: when the scheduler observes the shutdown flag, it dispatches
the entire current queue (possibly empty) as a final batch, leaves the
queue empty, and exits; moreover the shutdown branch is the loop's
only exit: any iteration that exits started with `shuttingDown`
true. -/
theorem shutdownDrain_spec {A B : Type} (b : Batcher A B)
    (h : b.shuttingDown = true) :
    (∃ r : StepResult A B, schedStep b = some r ∧ r.dispatched = b.jobs ∧
      r.batcher.jobs = [] ∧ r.exited = true) ∧
    (∀ (b' : Batcher A B) (r' : StepResult A B),
      schedStep b' = some r' → r'.exited = true →
      b'.shuttingDown = true) := by
  constructor
  · by_cases hj : b.jobs.length > 0
    · refine ⟨{ batcher := { b with jobs := [] }, dispatched := b.jobs,
                exited := true }, ?_, rfl, rfl, rfl⟩
      simp [schedStep, h, hj]
    · have hnil : b.jobs = [] := List.length_eq_zero.mp (by omega)
      refine ⟨{ batcher := b, dispatched := [], exited := true },
              ?_, ?_, ?_, rfl⟩
      · simp [schedStep, h, hj]
      · simp [hnil]
      · simp [hnil]
  · intro b' r' hstep hexit
    exact (schedStep_exited b' r' hstep).symm.trans hexit

/-- Witness for C6: draining the concrete batcher after shutdown. -/
theorem shutdownDrain_spec_witness :
    (Shutdown exampleBatcher).shuttingDown = true ∧
    (∃ r : StepResult Nat Nat,
      schedStep (Shutdown exampleBatcher) = some r ∧
      r.dispatched = (Shutdown exampleBatcher).jobs ∧
      r.batcher.jobs = [] ∧ r.exited = true) :=
  ⟨rfl, (shutdownDrain_spec (Shutdown exampleBatcher) rfl).1⟩

/-- C8: the queue preserves submission order: `AddJob` appends at the
tail, and every extraction — size trigger, shutdown drain, or timer
trigger — takes a prefix from the head, so the dispatched batch
followed by the remaining queue is always the original queue. -/
theorem fifoOrder_spec {A B : Type} (b : Batcher A B) :
    (∀ j : Job A, b.shuttingDown = false →
      (AddJob b j).2.jobs =
        b.jobs ++ [{ job := j, retCh := b.chans.length }]) ∧
    (∀ r : StepResult A B, schedStep b = some r →
      r.dispatched ++ r.batcher.jobs = b.jobs) ∧
    (tickStep b).dispatched ++ (tickStep b).batcher.jobs = b.jobs := by
  refine ⟨?_, ?_, by simp [tickStep]⟩
  · intro j hs
    simp [AddJob, hs]
  · intro r hr
    exact schedStep_dispatch_append b r hr

/-- Witness for C8 on the concrete batcher: tail append and head
extraction at explicit inputs. -/
theorem fifoOrder_spec_witness :
    exampleBatcher.shuttingDown = false ∧
    (AddJob exampleBatcher ⟨4, 40⟩).2.jobs =
      exampleBatcher.jobs ++
        [{ job := ⟨4, 40⟩, retCh := exampleBatcher.chans.length }] ∧
    (tickStep exampleBatcher).dispatched ++
        (tickStep exampleBatcher).batcher.jobs = exampleBatcher.jobs :=
  ⟨rfl, (fifoOrder_spec exampleBatcher).1 ⟨4, 40⟩ rfl,
   (fifoOrder_spec exampleBatcher).2.2⟩

/-- C9: `Shutdown` does not touch the ticker, the ticker-listener loop
has no exit condition (its iterations never report an exit), and from
any drained state (empty queue) every further firing dispatches an
empty batch and leaves the queue empty, for all time. -/
theorem tickerNeverStops_spec {A B : Type} (b : Batcher A B)
    (h : b.jobs = []) :
    (Shutdown b).tickerRemaining = b.tickerRemaining ∧
    (∀ b' : Batcher A B, (tickStep b').exited = false) ∧
    (∀ n : Nat, (tickIterN n b).jobs = [] ∧
      (tickStep (tickIterN n b)).dispatched = [] ∧
      (tickStep (tickIterN n b)).exited = false) := by
  refine ⟨rfl, fun b' => rfl, ?_⟩
  intro n
  have hj := tickIterN_jobs_nil n b h
  exact ⟨hj, by simp [tickStep, hj], rfl⟩

/-- Witness for C9: a drained batcher after three further firings. -/
theorem tickerNeverStops_spec_witness :
    (NewBatcher (fun n : Nat => n + 1) 5 2).jobs = [] ∧
    (tickIterN 3 (NewBatcher (fun n : Nat => n + 1) 5 2)).jobs = [] ∧
    (tickStep (tickIterN 3 (NewBatcher (fun n : Nat => n + 1) 5 2))).exited =
      false :=
  ⟨rfl,
   ((tickerNeverStops_spec (NewBatcher (fun n : Nat => n + 1) 5 2)
      rfl).2.2 3).1,
   ((tickerNeverStops_spec (NewBatcher (fun n : Nat => n + 1) 5 2)
      rfl).2.2 3).2.2⟩

/-- C10 counterexample: at `batchSize = -1` the size-trigger condition
does hold on the empty queue, but the scheduler iteration does not
dispatch an empty batch — the slice expression
`b.jobs[0:b.batchSize]` is out of range, a run-time panic (`none`),
refuting the claim that empty batches are extracted and dispatched for
every `batchSize ≤ 0`. -/
theorem newBatcher_validation_counterexample :
    ((NewBatcher (fun n : Nat => n) 5 (-1)).jobs.length : Int) ≥
      (NewBatcher (fun n : Nat => n) 5 (-1)).batchSize ∧
    schedStep (NewBatcher (fun n : Nat => n) 5 (-1)) = none :=
  ⟨by decide, rfl⟩

/-- C10 amended: `NewBatcher` stores any integer `batchSize` without
validation, and for every `batchSize ≤ 0` the size-trigger condition
holds even on an empty queue; for `batchSize = 0` the scheduler then
extracts and dispatches empty batches unconditionally (each iteration
reproduces the same state), while for `batchSize < 0` the slice
expression of the size branch panics (slice bounds out of range). -/
theorem newBatcher_validation_amended {A B : Type} (p : A → B) (f : Nat)
    (sz : Int) (h : sz ≤ 0) :
    (NewBatcher p f sz).batchSize = sz ∧
    (((NewBatcher p f sz).jobs.length : Int) ≥ sz) ∧
    (sz = 0 → schedStep (NewBatcher p f sz) =
      some { batcher := NewBatcher p f sz, dispatched := [],
             exited := false }) ∧
    (sz < 0 → schedStep (NewBatcher p f sz) = none) := by
  refine ⟨rfl, by simp; omega, ?_, ?_⟩
  · intro h0
    subst h0
    rfl
  · intro hneg
    have h1 : goSlice ([] : List (BatchJob A)) 0 sz = none := by
      unfold goSlice
      rw [if_neg]
      simp
      omega
    have hg : ((([] : List (BatchJob A)).length : Int)) ≥ sz := by
      simp
      omega
    simp [schedStep, NewBatcher, h1, hg]
    omega

/-- Witness for C10 (amended) at the two concrete configurations
`batchSize = 0` and `batchSize = -2`. -/
theorem newBatcher_validation_witness :
    schedStep (NewBatcher (fun n : Nat => n) 5 0) =
      some { batcher := NewBatcher (fun n : Nat => n) 5 0,
             dispatched := [], exited := false } ∧
    schedStep (NewBatcher (fun n : Nat => n) 7 (-2)) = none :=
  ⟨(newBatcher_validation_amended (fun n : Nat => n) 5 0
      (by decide)).2.2.1 rfl,
   (newBatcher_validation_amended (fun n : Nat => n) 7 (-2)
      (by decide)).2.2.2 (by decide)⟩

/-- C1: an accepted `AddJob` pairs the appended queued job with the
returned future through one freshly allocated channel; the dispatch
invocation for that job writes exactly `processor(job.data)` into that
channel and touches no other channel (pairing never crossed), and
`Get()` on the future then returns `processor(job.data)`. -/
theorem jobResultPairing_spec {A B : Type} (b : Batcher A B) (j : Job A)
    (hs : b.shuttingDown = false) :
    ∃ (fut : JobResult B) (b1 : Batcher A B) (q : BatchJob A),
      AddJob b j = (Except.ok fut, b1) ∧
      b1.jobs = b.jobs ++ [q] ∧
      q.retCh = fut.ch ∧
      ∃ chans1,
        processJob b1.processor b1.chans q = some chans1 ∧
        (∀ i, i ≠ q.retCh → chans1.get? i = b1.chans.get? i) ∧
        fut.Get chans1 =
          some (b.processor j.Data,
                { fut with data := some (b.processor j.Data) },
                chans1.set fut.ch none) := by
  refine ⟨{ JobId := j.Id, data := none, ch := b.chans.length },
          { b with jobs := b.jobs ++ [{ job := j, retCh := b.chans.length }],
                   chans := b.chans ++ [none] },
          { job := j, retCh := b.chans.length }, ?_, rfl, rfl, ?_⟩
  · simp [AddJob, hs]
  · refine ⟨(b.chans ++ [none]).set b.chans.length
        (some (b.processor j.Data)), ?_, ?_, ?_⟩
    · exact chanSend_append_fresh b.chans (b.processor j.Data)
    · intro i hi
      exact get_set_other _ _ _ _ hi
    · show JobResult.Get _ _ = _
      unfold JobResult.Get
      rw [chanRecv_set_fresh b.chans (b.processor j.Data)]

/-- Witness for C1: submitting one concrete job to a concrete batcher
and processing it end to end. -/
theorem jobResultPairing_spec_witness :
    (NewBatcher (fun n : Nat => n + 1) 5 2).shuttingDown = false ∧
    ∃ (fut : JobResult Nat) (b1 : Batcher Nat Nat) (q : BatchJob Nat),
      AddJob (NewBatcher (fun n : Nat => n + 1) 5 2) ⟨1, 41⟩ =
        (Except.ok fut, b1) ∧
      b1.jobs = (NewBatcher (fun n : Nat => n + 1) 5 2).jobs ++ [q] ∧
      q.retCh = fut.ch ∧
      ∃ chans1,
        processJob b1.processor b1.chans q = some chans1 ∧
        (∀ i, i ≠ q.retCh → chans1.get? i = b1.chans.get? i) ∧
        fut.Get chans1 =
          some ((NewBatcher (fun n : Nat => n + 1) 5 2).processor
                  (Job.Data ⟨1, 41⟩),
                { fut with
                  data :=
                    some ((NewBatcher (fun n : Nat => n + 1) 5 2).processor
                      (Job.Data ⟨1, 41⟩)) },
                chans1.set fut.ch none) :=
  ⟨rfl, jobResultPairing_spec (NewBatcher (fun n : Nat => n + 1) 5 2)
    ⟨1, 41⟩ rfl⟩

end Microbatcher
